import Mathlib

/-!
Verification of the raw-data stream relay component
(src/ublox_gps/src/raw_data_pa.cpp, class RawDataStreamPa).

The C++ class is embedded shallowly: the object's fields together with the
observable effects (bytes written to the log file, messages published on the
channel, subscription wiring, diagnostic output) form an explicit state
record, and each member function becomes a state-passing Lean function
translated line by line from the source.  External collaborators (the ROS
parameter server, the filesystem stat/open calls, the wall clock) are passed
in as explicit inputs.  Bytes are modelled as natural numbers.
-/

/-- One entry of std_msgs/MultiArrayDimension: label, size, stride. -/
structure MultiArrayDimension where
  label : String
  size : Nat
  stride : Nat
deriving Repr, DecidableEq

/-- std_msgs/MultiArrayLayout: dimension list and data offset. -/
structure MultiArrayLayout where
  dim : List MultiArrayDimension
  data_offset : Nat
deriving Repr, DecidableEq

/-- std_msgs/UInt8MultiArray: a layout plus the raw data bytes. -/
structure UInt8MultiArray where
  layout : MultiArrayLayout
  data : List Nat
deriving Repr, DecidableEq

/-- The observable state of one RawDataStreamPa instance: the C++ object
fields (flag_publish_, is_ros_subscriber_, file_dir_, file_name_ and whether
file_handle_ is open) together with the externally observable effects:
the bytes appended to the open log file, the list of files created by a
successful open, the messages published on the raw_data_stream topic,
whether the subscription was registered, and the diagnostic messages. -/
structure RawDataStreamPa where
  flag_publish : Bool
  is_ros_subscriber : Bool
  file_dir : String
  file_name : String
  file_open : Bool
  file_contents : List Nat
  files_created : List String
  published : List UInt8MultiArray
  subscribed : Bool
  errors : List String
  infos : List String
deriving Repr, DecidableEq

/-- The constructor RawDataStreamPa::RawDataStreamPa(bool is_ros_subscriber):
flag_publish_ is initialised to false, the mode flag is stored, the publisher
is created and the three parameters are declared with defaults ""/""/false.
All string fields start empty, no file is open, nothing has been published
or written yet. -/
def construct (is_ros_subscriber : Bool) : RawDataStreamPa :=
  { flag_publish := false
    is_ros_subscriber := is_ros_subscriber
    file_dir := ""
    file_name := ""
    file_open := false
    file_contents := []
    files_created := []
    published := []
    subscribed := false
    errors := []
    infos := [] }

/-- The resolved parameter store read by getRosParams: the values of the
parameters dir, raw_data_stream.dir and raw_data_stream.publish (absent keys
resolve to the declared defaults "", "", false). -/
structure ParamStore where
  dir : String
  raw_data_stream_dir : String
  raw_data_stream_publish : Bool
deriving Repr, DecidableEq

/-- RawDataStreamPa::getRosParams: if is_ros_subscriber_, file_dir_ is read
from parameter "dir"; otherwise file_dir_ is read from
"raw_data_stream.dir" and flag_publish_ from "raw_data_stream.publish". -/
def getRosParams (p : ParamStore) (s : RawDataStreamPa) : RawDataStreamPa :=
  if s.is_ros_subscriber then
    { s with file_dir := p.dir }
  else
    { s with file_dir := p.raw_data_stream_dir
             flag_publish := p.raw_data_stream_publish }

/-- RawDataStreamPa::isEnabled: in subscriber (relay) mode, true iff
file_dir_ is non-empty; otherwise flag_publish_ or file_dir_ non-empty. -/
def isEnabled (s : RawDataStreamPa) : Bool :=
  if s.is_ros_subscriber then
    !s.file_dir.isEmpty
  else
    s.flag_publish || !s.file_dir.isEmpty

/-- Models std::copy(src.begin(), src.end(), dst.begin()): the first
src.length elements of dst are overwritten by src, the rest kept. -/
def copyFrom (src dst : List Nat) : List Nat :=
  src ++ dst.drop src.length

/-- RawDataStreamPa::str2uint8: builds a UInt8MultiArray whose single
dimension carries the length, stride 1 and label "raw_data_stream", and
whose data buffer is resized to str.length() and filled by std::copy. -/
def str2uint8 (str : List Nat) : UInt8MultiArray :=
  { layout :=
      { data_offset := 0
        dim := [{ label := "raw_data_stream", size := str.length, stride := 1 }] }
    data := copyFrom str (List.replicate str.length 0) }

/-- RawDataStreamPa::publishMsg: publishes str2uint8(str) on raw_pub_. -/
def publishMsg (str : List Nat) (s : RawDataStreamPa) : RawDataStreamPa :=
  { s with published := s.published ++ [str2uint8 str] }

/-- RawDataStreamPa::saveToFile: if file_handle_.is_open(), append the bytes
to the file; otherwise do nothing. -/
def saveToFile (str : List Nat) (s : RawDataStreamPa) : RawDataStreamPa :=
  if s.file_open then
    { s with file_contents := s.file_contents ++ str }
  else
    s

/-- RawDataStreamPa::ubloxCallback(data, size): builds std::string str(data,
size), i.e. copies exactly size bytes from the buffer; publishes it when
flag_publish_ is set; then always calls saveToFile. -/
def ubloxCallback (data : List Nat) (size : Nat) (s : RawDataStreamPa) :
    RawDataStreamPa :=
  let str := data.take size
  let s1 := if s.flag_publish then publishMsg str s else s
  saveToFile str s1

/-- The string built by RawDataStreamPa::msgCallback from a received
message: std::string str(msg->data.size(), ' ') then
std::copy(msg->data.begin(), msg->data.end(), str.begin()). -/
def msgToStr (msg : UInt8MultiArray) : List Nat :=
  copyFrom msg.data (List.replicate msg.data.length 32)

/-- RawDataStreamPa::msgCallback: rebuilds the byte string from the message
data and routes it to saveToFile; nothing else. -/
def msgCallback (msg : UInt8MultiArray) (s : RawDataStreamPa) :
    RawDataStreamPa :=
  saveToFile (msgToStr msg) s

/-- Result of the ::stat call on file_dir_ in initialize: the path does not
exist, exists but is not a directory, or is a directory. -/
inductive StatResult where
  | noEnt
  | notDir
  | isDir
deriving Repr, DecidableEq

/-- struct tm as filled by localtime: years since 1900, months since
January, day of month, hour, minute. -/
structure Tm where
  tm_year : Nat
  tm_mon : Nat
  tm_mday : Nat
  tm_hour : Nat
  tm_min : Nat
deriving Repr, DecidableEq

/-- The environment observed by initialize: the stat result for file_dir_,
whether opening the log file succeeds, and the current local time. -/
structure Env where
  stat : StatResult
  openOk : Bool
  now : Tm
deriving Repr, DecidableEq

/-- Models a stringstream insertion of a number with width w and fill '0':
the decimal digits, left-padded with zeros to at least width w. -/
def padNum (w : Nat) (n : Nat) : String :=
  let s := toString n
  String.mk (List.replicate (w - s.length) '0') ++ s

/-- The filename computed by initialize from the struct tm: year (+1900,
width 4), month (+1, width 2), day, hour, minute (width 2 each), with
underscores between year, month, day and hour and extension ".log". -/
def timeFilename (t : Tm) : String :=
  padNum 4 (t.tm_year + 1900) ++ "_" ++ padNum 2 (t.tm_mon + 1) ++ "_" ++
    padNum 2 t.tm_mday ++ "_" ++ padNum 2 t.tm_hour ++ padNum 2 t.tm_min ++
    ".log"

/-- RawDataStreamPa::initialize: first the channel wiring (subscribe in
relay mode; in producer mode with flag_publish_ set, announce and publish an
empty readiness message), then, if file_dir_ is non-empty, the file wiring:
stat the directory, report an error if missing or not a directory,
otherwise normalize the directory with a trailing slash, compute the
timestamped filename and try to open the file. -/
def initializeFn (env : Env) (s : RawDataStreamPa) : RawDataStreamPa :=
  let s1 :=
    if s.is_ros_subscriber then
      { s with infos := s.infos ++ ["Subscribing to raw data stream."]
               subscribed := true }
    else if s.flag_publish then
      publishMsg []
        { s with infos := s.infos ++ ["Publishing raw data stream."] }
    else s
  if s1.file_dir.isEmpty then s1
  else
    match env.stat with
    | StatResult.noEnt =>
        { s1 with errors := s1.errors ++
            ["Cannot log raw data to file. Directory does not exist."] }
    | StatResult.notDir =>
        { s1 with errors := s1.errors ++
            ["Cannot log raw data to file. Path exists, but is not a directory."] }
    | StatResult.isDir =>
        let dir := if s1.file_dir.back ≠ '/' then s1.file_dir.push '/'
                   else s1.file_dir
        let fname := dir ++ timeFilename env.now
        let s2 := { s1 with file_dir := dir, file_name := fname }
        if env.openOk then
          { s2 with file_open := true
                    files_created := s2.files_created ++ [fname]
                    infos := s2.infos ++ ["Logging raw data to file."] }
        else
          { s2 with errors := s2.errors ++
              ["Cannot log raw data to file. Cannot create file."] }

/-- Routing a finite sequence of chunks to the file-write path in order. -/
def routeAll (chunks : List (List Nat)) (s : RawDataStreamPa) :
    RawDataStreamPa :=
  chunks.foldl (fun st c => saveToFile c st) s

/-- Copying a list into a fresh buffer of exactly its length returns it. -/
theorem copyFrom_replicate (src : List Nat) (x : Nat) :
    copyFrom src (List.replicate src.length x) = src := by
  simp [copyFrom]

/-- Decoding the message data of str2uint8 with the msgCallback
reconstruction recovers the original byte sequence. -/
theorem msgToStr_str2uint8 (s : List Nat) : msgToStr (str2uint8 s) = s := by
  simp [msgToStr, str2uint8, copyFrom_replicate, copyFrom]

/-- C1: for every producer-mode state, isEnabled is true iff the publish
flag is set or the log directory is non-empty; for every relay-mode state,
isEnabled is true iff the log directory is non-empty, with no reference to
the publish flag. -/
theorem isEnabled_spec (s : RawDataStreamPa) :
    (s.is_ros_subscriber = false →
      (isEnabled s = true ↔ (s.flag_publish = true ∨ s.file_dir ≠ ""))) ∧
    (s.is_ros_subscriber = true →
      (isEnabled s = true ↔ s.file_dir ≠ "")) := by
  have hiff : s.file_dir.isEmpty = false ↔ s.file_dir ≠ "" := by
    rw [← Bool.not_eq_true, not_iff_not, String.isEmpty_iff]
  constructor
  · intro h
    simp [isEnabled, h]
    rw [hiff]
  · intro h
    simp [isEnabled, h]
    rw [hiff]

/-- Witness for isEnabled_spec at concrete states of both modes. -/
theorem isEnabled_spec_witness :
    isEnabled { construct false with flag_publish := true } = true ∧
    isEnabled { construct true with file_dir := "log" } = true := by
  constructor
  · exact ((isEnabled_spec { construct false with flag_publish := true }).1
      rfl).mpr (Or.inl rfl)
  · exact ((isEnabled_spec { construct true with file_dir := "log" }).2
      rfl).mpr (by decide)

/-- C2 counterexample: with parameter values dir = "A",
raw_data_stream.dir = "B", raw_data_stream.publish = true, the
producer-mode resolver (is_ros_subscriber false) stores "B", not the value
of parameter dir; the relay-mode resolver stores "A"; and the publish flag
is read (and set) in producer mode, never in relay mode. -/
theorem getRosParams_counterexample :
    (getRosParams ⟨"A", "B", true⟩ (construct false)).file_dir ≠ "A" ∧
    (getRosParams ⟨"A", "B", true⟩ (construct false)).file_dir = "B" ∧
    (getRosParams ⟨"A", "B", true⟩ (construct true)).file_dir = "A" ∧
    (getRosParams ⟨"A", "B", true⟩ (construct true)).flag_publish = false ∧
    (getRosParams ⟨"A", "B", true⟩ (construct false)).flag_publish = true := by
  refine ⟨by decide, by decide, by decide, by decide, by decide⟩

/-- C2 as amended: the resolver reads parameter dir as the relay-mode
log-directory value, reads raw_data_stream.dir as the producer-mode
log-directory value, and reads raw_data_stream.publish only in producer
mode, where it sets the publish flag; in relay mode the flag is left
unchanged. -/
theorem getRosParams_spec (p : ParamStore) (s : RawDataStreamPa) :
    (s.is_ros_subscriber = true →
      (getRosParams p s).file_dir = p.dir ∧
      (getRosParams p s).flag_publish = s.flag_publish) ∧
    (s.is_ros_subscriber = false →
      (getRosParams p s).file_dir = p.raw_data_stream_dir ∧
      (getRosParams p s).flag_publish = p.raw_data_stream_publish) := by
  constructor
  · intro h
    simp [getRosParams, h]
  · intro h
    simp [getRosParams, h]

/-- Witness for getRosParams_spec at concrete states of both modes. -/
theorem getRosParams_spec_witness :
    (getRosParams ⟨"A", "B", true⟩ (construct true)).file_dir = "A" ∧
    (getRosParams ⟨"A", "B", true⟩ (construct false)).file_dir = "B" := by
  constructor
  · exact ((getRosParams_spec ⟨"A", "B", true⟩ (construct true)).1 rfl).1
  · exact ((getRosParams_spec ⟨"A", "B", true⟩ (construct false)).2 rfl).1

/-- C3: for every byte sequence s, encoding with str2uint8 and reading the
message data bytes back in order yields exactly s, with unchanged length
and order; the single dimension records the length with stride 1 and label
"raw_data_stream"; the empty sequence encodes to a message of length 0
with zero data bytes. -/
theorem str2uint8_roundTrip (s : List Nat) :
    msgToStr (str2uint8 s) = s ∧
    (str2uint8 s).data = s ∧
    (str2uint8 s).data.length = s.length ∧
    (str2uint8 s).layout.dim =
      [{ label := "raw_data_stream", size := s.length, stride := 1 }] ∧
    (str2uint8 ([] : List Nat)).data = [] ∧
    (str2uint8 ([] : List Nat)).layout.dim.map MultiArrayDimension.size = [0] := by
  refine ⟨msgToStr_str2uint8 s, ?_, ?_, ?_, ?_, ?_⟩
  · simp [str2uint8, copyFrom_replicate]
  · simp [str2uint8, copyFrom_replicate]
  · simp [str2uint8]
  · simp [str2uint8, copyFrom]
  · simp [str2uint8]

/-- C4: ubloxCallback with a buffer of at least size bytes builds a chunk of
exactly size bytes; the chunk is encoded and published iff the publish flag
is set; the file-write path is always attempted and appends the chunk iff a
file is open; when no file is open, saveToFile is a no-op that reports no
error and changes no state at all. -/
theorem ubloxCallback_spec (s : RawDataStreamPa) (data : List Nat)
    (size : Nat) (h : size ≤ data.length) :
    (data.take size).length = size ∧
    (ubloxCallback data size s).published =
      s.published ++
        (if s.flag_publish then [str2uint8 (data.take size)] else []) ∧
    (ubloxCallback data size s).file_contents =
      s.file_contents ++ (if s.file_open then data.take size else []) ∧
    (s.file_open = false → saveToFile (data.take size) s = s) ∧
    (s.file_open = false →
      (ubloxCallback data size s).errors = s.errors ∧
      (ubloxCallback data size s).file_contents = s.file_contents) := by
  refine ⟨List.length_take_of_le h, ?_, ?_, ?_, ?_⟩
  · cases hf : s.flag_publish <;>
      cases ho : s.file_open <;>
        simp [ubloxCallback, publishMsg, saveToFile, hf, ho]
  · cases hf : s.flag_publish <;>
      cases ho : s.file_open <;>
        simp [ubloxCallback, publishMsg, saveToFile, hf, ho]
  · intro ho
    simp [saveToFile, ho]
  · intro ho
    cases hf : s.flag_publish <;>
      simp [ubloxCallback, publishMsg, saveToFile, hf, ho]

/-- Witness for ubloxCallback_spec on a concrete three-byte buffer with
publishing enabled and a file open. -/
theorem ubloxCallback_spec_witness :
    (([1, 2, 3] : List Nat).take 3).length = 3 ∧
    (ubloxCallback [1, 2, 3] 3
        { construct false with flag_publish := true, file_open := true
        }).file_contents = [1, 2, 3] := by
  have h := ubloxCallback_spec
    { construct false with flag_publish := true, file_open := true }
    [1, 2, 3] 3 (by decide)
  refine ⟨h.1, ?_⟩
  rw [h.2.2.1]
  decide

/-- C5: msgCallback routes the message bytes only to the file-write path:
the published list is unchanged, the bytes appended to an open file are
exactly the message data in delivery order, and the result does not depend
on the publish flag (the flag is carried through untouched and never
consulted). -/
theorem msgCallback_spec (s : RawDataStreamPa) (msg : UInt8MultiArray)
    (b : Bool) :
    (msgCallback msg s).published = s.published ∧
    (msgCallback msg s).flag_publish = s.flag_publish ∧
    (msgCallback msg s).file_contents =
      s.file_contents ++ (if s.file_open then msg.data else []) ∧
    msgCallback msg { s with flag_publish := b } =
      { msgCallback msg s with flag_publish := b } := by
  refine ⟨?_, ?_, ?_, ?_⟩ <;>
    cases ho : s.file_open <;>
      simp [msgCallback, saveToFile, msgToStr, copyFrom_replicate, ho]

/-- C6: for every state with an open file and every finite sequence of
chunks routed to the file-write path, all chunks are appended to the same
single file (file_name is unchanged, the file stays open, no new file is
created) and the final contents are the initial contents followed by the
exact concatenation of the chunks in arrival order. -/
theorem routeAll_spec (s : RawDataStreamPa) (chunks : List (List Nat))
    (h : s.file_open = true) :
    (routeAll chunks s).file_contents = s.file_contents ++ chunks.flatten ∧
    (routeAll chunks s).file_name = s.file_name ∧
    (routeAll chunks s).file_open = true ∧
    (routeAll chunks s).files_created = s.files_created := by
  induction chunks generalizing s with
  | nil => simp [routeAll, h]
  | cons c rest ih =>
    have hstep : saveToFile c s =
        { s with file_contents := s.file_contents ++ c } := by
      simp [saveToFile, h]
    have hrec := ih { s with file_contents := s.file_contents ++ c } h
    refine ⟨?_, ?_, ?_, ?_⟩ <;>
      simp [routeAll, hstep] at hrec ⊢ <;>
        simp [hrec]

/-- Witness for routeAll_spec: two chunks routed to an open file. -/
theorem routeAll_spec_witness :
    (routeAll [[1, 2], [3]]
        { construct true with file_open := true }).file_contents =
      [1, 2, 3] := by
  have h := routeAll_spec { construct true with file_open := true }
    [[1, 2], [3]] rfl
  rw [h.1]
  decide

/-- C7: with local time 2024-03-07 09:05 (struct tm fields 124, 2, 7, 9, 5)
the computed filename before the extension is exactly 2024_03_07_0905,
with underscores between year, month, day and hour but none between hour
and minute, appended to the normalized directory with extension .log. -/
theorem filename_format :
    timeFilename { tm_year := 124, tm_mon := 2, tm_mday := 7, tm_hour := 9,
                   tm_min := 5 } = "2024_03_07_0905.log" ∧
    (initializeFn
        { stat := StatResult.isDir, openOk := true,
          now := { tm_year := 124, tm_mon := 2, tm_mday := 7, tm_hour := 9,
                   tm_min := 5 } }
        { construct false with file_dir := "log" }).file_name =
      "log/2024_03_07_0905.log" := by
  constructor <;> decide

/-- C8: when the configured log directory is non-empty but the stat check
does not report a directory (missing path or not a directory),
initialization leaves no file open, creates no file, leaves the computed
filename unset, reports exactly one error, and produces the same channel
wiring (subscription flag and published messages) as under any other stat
outcome; the function is total, so the process is never aborted. -/
theorem initializeFn_badDir (s : RawDataStreamPa) (env : Env)
    (hdir : s.file_dir ≠ "") (hopen : s.file_open = false)
    (hstat : env.stat ≠ StatResult.isDir) :
    (initializeFn env s).file_open = false ∧
    (initializeFn env s).files_created = s.files_created ∧
    (initializeFn env s).file_name = s.file_name ∧
    (initializeFn env s).errors.length = s.errors.length + 1 ∧
    ∀ env2 : Env,
      (initializeFn env s).subscribed = (initializeFn env2 s).subscribed ∧
      (initializeFn env s).published = (initializeFn env2 s).published := by
  have hd : s.file_dir.isEmpty = false := by
    rw [← Bool.not_eq_true, String.isEmpty_iff]
    exact hdir
  have hwire : ∀ e : Env,
      (initializeFn e s).subscribed =
        (if s.is_ros_subscriber then true else s.subscribed) ∧
      (initializeFn e s).published =
        s.published ++
          (if s.is_ros_subscriber = false ∧ s.flag_publish = true then
            [str2uint8 []] else []) := by
    intro e
    cases e with
    | mk st2 op2 now2 =>
      cases st2 <;> cases op2 <;>
        cases hs : s.is_ros_subscriber <;> cases hf : s.flag_publish <;>
          simp [initializeFn, publishMsg, hd, hs, hf]
  have hmain : (initializeFn env s).file_open = false ∧
      (initializeFn env s).files_created = s.files_created ∧
      (initializeFn env s).file_name = s.file_name ∧
      (initializeFn env s).errors.length = s.errors.length + 1 := by
    cases env with
    | mk st op now =>
      cases st with
      | noEnt =>
        cases hs : s.is_ros_subscriber <;> cases hf : s.flag_publish <;>
          simp [initializeFn, publishMsg, hd, hs, hf, hopen]
      | notDir =>
        cases hs : s.is_ros_subscriber <;> cases hf : s.flag_publish <;>
          simp [initializeFn, publishMsg, hd, hs, hf, hopen]
      | isDir => exact absurd rfl hstat
  exact ⟨hmain.1, hmain.2.1, hmain.2.2.1, hmain.2.2.2, fun env2 =>
    ⟨((hwire env).1).trans ((hwire env2).1).symm,
     ((hwire env).2).trans ((hwire env2).2).symm⟩⟩

/-- Witness for initializeFn_badDir: a relay-mode state with directory "x"
that does not exist. -/
theorem initializeFn_badDir_witness :
    (initializeFn
        { stat := StatResult.noEnt, openOk := true,
          now := { tm_year := 0, tm_mon := 0, tm_mday := 0, tm_hour := 0,
                   tm_min := 0 } }
        { construct true with file_dir := "x" }).file_open = false ∧
    (initializeFn
        { stat := StatResult.noEnt, openOk := true,
          now := { tm_year := 0, tm_mon := 0, tm_mday := 0, tm_hour := 0,
                   tm_min := 0 } }
        { construct true with file_dir := "x" }).errors.length = 1 := by
  have h := initializeFn_badDir { construct true with file_dir := "x" }
    { stat := StatResult.noEnt, openOk := true,
      now := { tm_year := 0, tm_mon := 0, tm_mday := 0, tm_hour := 0,
               tm_min := 0 } }
    (by decide) rfl (by decide)
  exact ⟨h.1, h.2.2.2.1⟩

/-- C9: immediately after construction, the publish flag is false, the
directory is empty and no file is open; in this state both entry points
are complete no-ops: every incoming chunk leaves the whole observable
state unchanged (nothing published, nothing written). -/
theorem construct_inert (b : Bool) (data : List Nat) (size : Nat)
    (msg : UInt8MultiArray) :
    (construct b).flag_publish = false ∧
    (construct b).file_dir = "" ∧
    (construct b).file_open = false ∧
    ubloxCallback data size (construct b) = construct b ∧
    msgCallback msg (construct b) = construct b := by
  refine ⟨rfl, rfl, rfl, ?_, ?_⟩ <;>
    simp [construct, ubloxCallback, msgCallback, saveToFile]

/-- C10: msgCallback routes exactly msg.data.size() bytes, taken verbatim
from the data field; the layout metadata is never read, so two messages
with the same data but arbitrary different layouts are handled
identically, and the call is exactly saveToFile on the data bytes. -/
theorem msgCallback_layout_ignored (s : RawDataStreamPa)
    (l1 l2 : MultiArrayLayout) (d : List Nat) :
    msgToStr { layout := l1, data := d } = d ∧
    (msgToStr { layout := l1, data := d }).length = d.length ∧
    msgCallback { layout := l1, data := d } s =
      msgCallback { layout := l2, data := d } s ∧
    msgCallback { layout := l1, data := d } s = saveToFile d s := by
  refine ⟨?_, ?_, ?_, ?_⟩ <;>
    simp [msgCallback, msgToStr, copyFrom_replicate]
